import Mathlib

/-!
Shallow embedding of the deterministic core of the NYC Property-Risk-Assessment
repository (src/pipeline/rag_pipeline.py and src/agents/crime_agent.py).

Modelling conventions:
* Python floats are embedded as rationals (`ℚ`).  NaN / infinity are outside
  the embedded value space, so `_fv`'s NaN branch and the `_sanitize` pass
  (which only rewrites NaN to None) act as the identity here.
* A value stored under a dict key is a `PField`: the key may be absent, hold
  `None`, hold a number, or hold a truthy value that `float()` cannot parse
  (raising TypeError/ValueError).
* Python's `round` is round-half-to-even on the exact value (`pyRound`).
* Python's `int()` applied to a float truncates toward zero (`truncInt`).
* Fallible Python code (division that can raise ZeroDivisionError, the
  network transport of the narrative call) is embedded with `Except`.
-/

/-- A value read from a Python dict field: the key may be absent, explicitly
`None`, a numeric value, or a truthy value `float()` fails to parse. -/
inductive PField where
  | absent : PField
  | pnone  : PField
  | num    : ℚ → PField
  | bad    : PField
deriving DecidableEq, Repr

/-- Embeds `_fv` from rag_pipeline.py: return float or None (NaN is outside the
rational embedding, so the `isnan` branch does not arise). -/
def _fv : PField → Option ℚ
  | .num q => some q
  | _ => none

/-- Python's `int(float(x))` truncation toward zero on the embedded value. -/
def truncInt (q : ℚ) : ℤ :=
  if 0 ≤ q then ⌊q⌋ else ⌈q⌉

/-- Python 3's built-in `round` to an integer: round half to even. -/
def pyRound (q : ℚ) : ℤ :=
  if q - ⌊q⌋ < 1/2 then ⌊q⌋
  else if 1/2 < q - ⌊q⌋ then ⌊q⌋ + 1
  else if ⌊q⌋ % 2 = 0 then ⌊q⌋ else ⌊q⌋ + 1

/-- Flood record: the seven FVI / FSHRI dict fields read by `_flood_score`. -/
structure FloodRecord where
  FVI_storm_surge_present : PField
  FVI_storm_surge_2050s   : PField
  FVI_storm_surge_2080s   : PField
  FVI_tidal_2020s         : PField
  FVI_tidal_2050s         : PField
  FVI_tidal_2080s         : PField
  FSHRI                   : PField
deriving DecidableEq, Repr

/-- The wholly empty flood dict. -/
def emptyFlood : FloodRecord :=
  ⟨.absent, .absent, .absent, .absent, .absent, .absent, .absent⟩

/-- Embeds `_flood_score` from rag_pipeline.py: flood risk 0-100 from FVI data,
50 (neutral) when no FVI data is present. -/
def _flood_score (flood : FloodRecord) : ℤ :=
  let ss_pres := _fv flood.FVI_storm_surge_present
  let ss_2050 := _fv flood.FVI_storm_surge_2050s
  let ss_2080 := _fv flood.FVI_storm_surge_2080s
  let t_2020  := _fv flood.FVI_tidal_2020s
  let t_2050  := _fv flood.FVI_tidal_2050s
  let t_2080  := _fv flood.FVI_tidal_2080s
  let fshri   := _fv flood.FSHRI
  -- Composite storm surge: 2050s weighted most heavily
  let surge_parts : List (Option ℚ × ℚ) := [(ss_pres, 0.2), (ss_2050, 0.5), (ss_2080, 0.3)]
  let surge_valid := surge_parts.filterMap fun vw => vw.1.map fun x => (x, vw.2)
  let composite_surge : Option ℚ :=
    if surge_valid.isEmpty then none
    else some ((surge_valid.map fun vw => vw.1 * vw.2).sum / (surge_valid.map fun vw => vw.2).sum)
  -- Composite tidal: simple mean
  let tidal_vals := [t_2020, t_2050, t_2080].filterMap id
  let composite_tidal : Option ℚ :=
    if tidal_vals.isEmpty then none else some (tidal_vals.sum / tidal_vals.length)
  -- Weighted combined flood index (1-5 scale)
  let components : List (Option ℚ × ℚ) := [(composite_surge, 0.4), (composite_tidal, 0.3), (fshri, 0.3)]
  let valid := components.filterMap fun vw => vw.1.map fun x => (x, vw.2)
  if valid.isEmpty then 50
  else
    let total_w := (valid.map fun vw => vw.2).sum
    let combined := (valid.map fun vw => vw.1 * vw.2).sum / total_w
    pyRound (max 0 (min 100 ((combined - 1) / 4 * 100)))

-- Quick sanity checks (claim C4's record) are proved later as theorems.

/-- Building class first-letter risk lookup (0-100), with the dict's
`.get(…, 40)` default for keys outside the table. -/
def _BLDG_CLASS_RISK (c : Char) : ℚ :=
  if c = 'A' then 20 else if c = 'B' then 30 else if c = 'C' then 40
  else if c = 'D' then 50 else if c = 'E' then 55 else if c = 'F' then 60
  else if c = 'G' then 65 else if c = 'H' then 50 else if c = 'I' then 50
  else if c = 'J' then 45 else if c = 'K' then 40 else if c = 'L' then 55
  else if c = 'M' then 45 else if c = 'O' then 60 else if c = 'Q' then 50
  else if c = 'R' then 25 else if c = 'S' then 40 else if c = 'U' then 70
  else if c = 'V' then 70 else if c = 'W' then 55 else 40

/-- Crime record: the three dict fields read by `_crime_score`. -/
structure CrimeRecord where
  severity_score : PField
  mean           : PField
  std            : PField
deriving DecidableEq, Repr

/-- The wholly empty crime dict. -/
def emptyCrime : CrimeRecord := ⟨.absent, .absent, .absent⟩

/-- Embeds `_crime_score` from rag_pipeline.py: crime risk 0-100 via a sigmoid on the
z-score.  `math.exp` is transcendental, so the embedding takes the exponential
map `mexp` as a parameter (the scorer uses it only inside the clamp, so every
bound below holds for an arbitrary `mexp`). -/
def _crime_score (mexp : ℚ → ℚ) (crime : CrimeRecord) : ℤ :=
  match _fv crime.severity_score, _fv crime.mean, _fv crime.std with
  | some sev, some mean, some std =>
      -- z = (sev - mean) / std if std else 0.0
      let z : ℚ := if std ≠ 0 then (sev - mean) / std else 0
      let score := 100 / (1 + mexp (-1.5 * (z - 0.3)))
      pyRound (max 0 (min 100 score))
  | _, _, _ => 50

/-- Property record: the PLUTO dict fields read by `_property_score`.
`hasError` models the `"error" in pluto` check; a missing or empty dict is the
`none` case of `Option PlutoRecord`. -/
structure PlutoRecord where
  yearbuilt : PField
  bldgclass : Option String
  assesstot : PField
  lotarea   : PField
  hasError  : Bool := false
deriving DecidableEq, Repr

/-- Python `float(d.get(k, default))` with a numeric literal default:
an absent key yields the default, `None` raises TypeError, an unparseable
truthy value raises ValueError (both mapped to `none`). -/
def pyFloatGetD (f : PField) (dflt : ℚ) : Option ℚ :=
  match f with
  | .absent => some dflt
  | .pnone  => none
  | .num q  => some q
  | .bad    => none

/-- Python `float(d.get(k) or 0)`: an absent key, `None` (and any other falsy
value, e.g. `0`) falls through to `0`; a truthy unparseable value raises. -/
def pyFloatOr0 (f : PField) : Option ℚ :=
  match f with
  | .absent => some 0
  | .pnone  => some 0
  | .num q  => some q
  | .bad    => none

/-- Age component of `_property_score`:
`age = 2025 - int(float(pluto.get("yearbuilt", 1975)))`, clamped linear map,
with the TypeError/ValueError fallback 40.0. -/
def _age_score (yearbuilt : PField) : ℚ :=
  match pyFloatGetD yearbuilt 1975 with
  | some q =>
      let age : ℤ := 2025 - truncInt q
      max 0 (min 100 (((age : ℚ) - 10) / 90 * 100))
  | none => 40

/-- Python `str.strip()` on the character list: drop whitespace from both
ends. -/
def pyStrip (l : List Char) : List Char :=
  ((l.dropWhile Char.isWhitespace).reverse.dropWhile Char.isWhitespace).reverse

/-- Building-class component of `_property_score`:
`bc = str(pluto.get("bldgclass") or "").strip()`, then the first-letter lookup
`_BLDG_CLASS_RISK.get(bc[0].upper() if bc else "", 40)` (an empty string looks
up the key `""`, which is outside the table, hence default 40). -/
def _class_score (bldgclass : Option String) : ℚ :=
  match pyStrip (bldgclass.getD "").data with
  | [] => 40
  | c :: _ => _BLDG_CLASS_RISK c.toUpper

/-- Assessed-value-density component of `_property_score`:
`val_per_sqft = (val / area) if area > 0 else 0.0`, clamped, with the
TypeError/ValueError fallback 50.0 when either field fails to parse. -/
def _value_score (assesstot lotarea : PField) : ℚ :=
  match pyFloatOr0 assesstot, pyFloatOr0 lotarea with
  | some val, some area =>
      let val_per_sqft := if 0 < area then val / area else 0
      max 0 (min 100 (100 - val_per_sqft))
  | _, _ => 50

/-- Embeds `_property_score` from rag_pipeline.py: property risk 0-100 from PLUTO
attributes — age 40%, class risk 30%, assessed value density 30%;
50 (neutral) for a missing/empty record or one carrying an `"error"` key. -/
def _property_score (pluto : Option PlutoRecord) : ℤ :=
  match pluto with
  | none => 50
  | some p =>
      if p.hasError then 50
      else
        let age_score := _age_score p.yearbuilt
        let class_score := _class_score p.bldgclass
        let value_score := _value_score p.assesstot p.lotarea
        pyRound (max 0 (min 100 (0.40 * age_score + 0.30 * class_score + 0.30 * value_score)))

/-- The four deterministic scores returned by `compute_scores`. -/
structure Scores where
  flood    : ℤ
  crime    : ℤ
  property : ℤ
  overall  : ℤ
deriving DecidableEq, Repr

/-- Embeds `compute_scores` from rag_pipeline.py: the three sub-scores plus the
derived overall score `round(0.40*f + 0.35*c + 0.25*p)`. -/
def compute_scores (mexp : ℚ → ℚ) (flood : FloodRecord) (crime : CrimeRecord)
    (property_data : Option PlutoRecord) : Scores :=
  let f := _flood_score flood
  let c := _crime_score mexp crime
  let p := _property_score property_data
  let overall := pyRound (0.40 * (f : ℚ) + 0.35 * (c : ℚ) + 0.25 * (p : ℚ))
  { flood := f, crime := c, property := p, overall := overall }

/-- Python errors the embedding distinguishes. -/
inductive PyErr where
  | zeroDivision : PyErr
deriving DecidableEq, Repr

/-- Python's `/` on numbers: raises ZeroDivisionError on a zero denominator. -/
def pyDiv (a b : ℚ) : Except PyErr ℚ :=
  if b = 0 then .error .zeroDivision else .ok (a / b)

/-- One complaint record as used by `score_crime_severity`: only the
`law_cat_cd` field is read; absent / `None` / `""` are all falsy and fall
through to `"UNKNOWN"`, so a falsy field is modelled as `none`. -/
structure Incident where
  law_cat_cd : Option String
deriving DecidableEq, Repr

/-- Embeds `SEVERITY_WEIGHTS.get(key, 0)` from crime_agent.py. -/
def SEVERITY_WEIGHTS (s : String) : ℚ :=
  if s = "FELONY" then 3 else if s = "MISDEMEANOR" then 2
  else if s = "VIOLATION" then 1 else if s = "UNKNOWN" then 0 else 0

/-- The dict returned by `get_crime_data_api`: clipped complaint records and
the buffer's intersected area with the borough union (m^2). -/
structure CrimeDict where
  data : List Incident
  area : ℚ
deriving DecidableEq, Repr

/-- Embeds `score_crime_severity` from crime_agent.py: severity per 1000 m^2,
`total_weight / area * 1000` — the division is unguarded, so a zero area
raises ZeroDivisionError. -/
def score_crime_severity (crime_dict : CrimeDict) : Except PyErr ℚ :=
  let total_weight :=
    (crime_dict.data.map fun rec => SEVERITY_WEIGHTS (rec.law_cat_cd.getD "UNKNOWN")).sum
  (pyDiv total_weight crime_dict.area).map (· * 1000)

/-- The accept/reject loop of `sample_high_density_grid`: walk the shuffled
candidate list, break once `required` scores are collected, skip any point
whose local sample has fewer than 100 complaints, otherwise append the
point's severity.  The per-point API fetch and severity computation are
abstracted as `oracle : P → Nat × ℚ` (complaint count, severity score). -/
def sampleLoop {P : Type} (oracle : P → Nat × ℚ) (required : Nat) :
    List P → List ℚ → List ℚ
  | [], scores => scores
  | p :: rest, scores =>
      if required ≤ scores.length then scores
      else if (oracle p).1 < 100 then sampleLoop oracle required rest scores
      else sampleLoop oracle required rest (scores ++ [(oracle p).2])

/-- Embeds `sample_high_density_grid` from crime_agent.py: lattice points inside the
borough polygon (`grid.filter inPoly` embeds the `poly.contains` filter of the
comprehension), shuffled (`shuffle` abstracts `random.shuffle`), then the
accept/reject loop.  Geometry is abstracted: a point is any `P` and the
polygon is its membership test `inPoly`. -/
def sample_high_density_grid {P : Type} (inPoly : P → Bool) (grid : List P)
    (shuffle : List P → List P) (oracle : P → Nat × ℚ) (required : Nat) : List ℚ :=
  let pts := shuffle (grid.filter fun p => inPoly p)
  sampleLoop oracle required pts []

/-- Transport failure of the narrative HTTP call (`requests.post` /
`raise_for_status` / response decoding). -/
inductive TransportErr where
  | httpError : TransportErr
deriving DecidableEq, Repr

/-- Result of `generate_risk_assessment`: deterministic scores plus the
LLM narrative. -/
structure RAGResult where
  scores    : Scores
  narrative : String
deriving DecidableEq, Repr

/-- Embeds `generate_risk_assessment` from rag_pipeline.py: score, retrieve, augment,
generate.  External collaborators are parameters: `retrieve` is the vector
store query (`query_by_risk_profile` on FSHRI, storm-surge-2050s, n_results),
`build` is `_build_messages` (pure prompt formatting), and `post` is the Groq
transport, returning the narrative or a transport error that the source does
not catch.  `_sanitize` only rewrites NaN values, which do not exist in the
rational embedding, so it is the identity here. -/
def generate_risk_assessment (mexp : ℚ → ℚ)
    (retrieve : PField → PField → Nat → List String)
    (build : String → FloodRecord → CrimeRecord → Option PlutoRecord →
             List String → Scores → List String)
    (post : List String → Except TransportErr String)
    (flood : FloodRecord) (crime : CrimeRecord) (address : String)
    (property_data : Option PlutoRecord) : Except TransportErr RAGResult :=
  let scores := compute_scores mexp flood crime property_data
  let context_docs := retrieve flood.FSHRI flood.FVI_storm_surge_2050s 3
  let messages := build address flood crime property_data context_docs scores
  (post messages).map fun narrative => { scores := scores, narrative := narrative }

/-! ### Helper lemmas about `pyRound` and the clamp pattern -/

theorem pyRound_intCast (n : ℤ) : pyRound (n : ℚ) = n := by
  simp [pyRound]

theorem floor_le_pyRound (q : ℚ) : ⌊q⌋ ≤ pyRound q := by
  unfold pyRound
  split_ifs <;> omega

theorem pyRound_le_floor_add_one (q : ℚ) : pyRound q ≤ ⌊q⌋ + 1 := by
  unfold pyRound
  split_ifs <;> omega

theorem pyRound_mono {p q : ℚ} (h : p ≤ q) : pyRound p ≤ pyRound q := by
  rcases lt_or_eq_of_le (Int.floor_mono h) with hf | hf
  · calc pyRound p ≤ ⌊p⌋ + 1 := pyRound_le_floor_add_one p
      _ ≤ ⌊q⌋ := by omega
      _ ≤ pyRound q := floor_le_pyRound q
  · have hfr : p - ⌊p⌋ ≤ q - ⌊q⌋ := by
      rw [← hf]; linarith
    unfold pyRound
    rw [← hf]
    split_ifs <;> first | omega | linarith

theorem le_pyRound_of_le {q : ℚ} {n : ℤ} (h : (n : ℚ) ≤ q) : n ≤ pyRound q := by
  have := pyRound_mono h
  rwa [pyRound_intCast] at this

theorem pyRound_le_of_le {q : ℚ} {n : ℤ} (h : q ≤ (n : ℚ)) : pyRound q ≤ n := by
  have := pyRound_mono h
  rwa [pyRound_intCast] at this

theorem pyRound_eq_floor {q : ℚ} {n : ℤ} (h1 : (n : ℚ) ≤ q) (h2 : q - n < 1/2) :
    pyRound q = n := by
  have hf : ⌊q⌋ = n := by
    rw [Int.floor_eq_iff]
    exact ⟨h1, by linarith⟩
  unfold pyRound
  rw [hf, if_pos (by exact_mod_cast h2)]

theorem pyRound_eq_add_one {q : ℚ} {n : ℤ} (h1 : 1/2 < q - n) (h2 : q < n + 1) :
    pyRound q = n + 1 := by
  have hf : ⌊q⌋ = n := by
    rw [Int.floor_eq_iff]
    exact ⟨by linarith, by exact_mod_cast h2⟩
  unfold pyRound
  rw [hf, if_neg (by linarith), if_pos (by exact_mod_cast h1)]

theorem clamp_nonneg (x : ℚ) : 0 ≤ max 0 (min 100 x) := le_max_left 0 _

theorem clamp_le_100 (x : ℚ) : max 0 (min 100 x) ≤ 100 :=
  max_le (by norm_num) (min_le_left 100 x)

theorem clamp_eq_self {x : ℚ} (h0 : 0 ≤ x) (h1 : x ≤ 100) : max 0 (min 100 x) = x := by
  rw [min_eq_right h1, max_eq_right h0]

theorem clamp_mono {x y : ℚ} (h : x ≤ y) :
    max 0 (min 100 x) ≤ max 0 (min 100 y) :=
  max_le_max le_rfl (min_le_min le_rfl h)

theorem pyRound_clamp_nonneg (x : ℚ) : 0 ≤ pyRound (max 0 (min 100 x)) :=
  le_pyRound_of_le (by exact_mod_cast clamp_nonneg x)

theorem pyRound_clamp_le_100 (x : ℚ) : pyRound (max 0 (min 100 x)) ≤ 100 :=
  pyRound_le_of_le (by exact_mod_cast clamp_le_100 x)

/-! ### Closed forms and bounds for the scorers -/

/-- Closed form of `_flood_score` on claim C4's record shape: storm-surge
present missing, both later surge horizons present, all tidal missing,
FSHRI present.  The weights are renormalized over what is available:
surge over 0.5 + 0.3, the combined index over 0.4 + 0.3. -/
theorem flood_score_surge_fshri (b c g : ℚ) :
    _flood_score ⟨.pnone, .num b, .num c, .pnone, .pnone, .pnone, .num g⟩ =
    pyRound (max 0 (min 100 (((((b*0.5 + c*0.3)/(0.5+0.3))*0.4 + g*0.3)/(0.4+0.3) - 1)/4*100))) := by
  simp [_flood_score, _fv]

/-- Closed form of `_flood_score` on a complete record: every renormalizing
denominator is the full weight 1. -/
theorem flood_score_complete (a b c d e f g : ℚ) :
    _flood_score ⟨.num a, .num b, .num c, .num d, .num e, .num f, .num g⟩ =
    pyRound (max 0 (min 100 ((0.4*(0.2*a + 0.5*b + 0.3*c) + 0.3*((d+e+f)/3) + 0.3*g - 1)/4*100))) := by
  simp [_flood_score, _fv]
  congr 1
  ring_nf

theorem ite_50_pyRound_clamp_nonneg (c : Prop) [Decidable c] (x : ℚ) :
    0 ≤ (if c then (50 : ℤ) else pyRound (max 0 (min 100 x))) := by
  split
  · norm_num
  · exact pyRound_clamp_nonneg x

theorem ite_50_pyRound_clamp_le_100 (c : Prop) [Decidable c] (x : ℚ) :
    (if c then (50 : ℤ) else pyRound (max 0 (min 100 x))) ≤ 100 := by
  split
  · norm_num
  · exact pyRound_clamp_le_100 x

theorem _flood_score_nonneg (flood : FloodRecord) : 0 ≤ _flood_score flood := by
  unfold _flood_score
  dsimp only
  exact ite_50_pyRound_clamp_nonneg _ _

theorem _flood_score_le_100 (flood : FloodRecord) : _flood_score flood ≤ 100 := by
  unfold _flood_score
  dsimp only
  exact ite_50_pyRound_clamp_le_100 _ _

theorem _crime_score_nonneg (mexp : ℚ → ℚ) (crime : CrimeRecord) :
    0 ≤ _crime_score mexp crime := by
  unfold _crime_score
  split
  · exact pyRound_clamp_nonneg _
  · norm_num

theorem _crime_score_le_100 (mexp : ℚ → ℚ) (crime : CrimeRecord) :
    _crime_score mexp crime ≤ 100 := by
  unfold _crime_score
  split
  · exact pyRound_clamp_le_100 _
  · norm_num

theorem _property_score_nonneg (pluto : Option PlutoRecord) :
    0 ≤ _property_score pluto := by
  unfold _property_score
  split
  · norm_num
  · split
    · norm_num
    · exact pyRound_clamp_nonneg _

theorem _property_score_le_100 (pluto : Option PlutoRecord) :
    _property_score pluto ≤ 100 := by
  unfold _property_score
  split
  · norm_num
  · split
    · norm_num
    · exact pyRound_clamp_le_100 _

theorem flood_empty : _flood_score emptyFlood = 50 := by
  simp [_flood_score, _fv, emptyFlood]

theorem crime_empty (mexp : ℚ → ℚ) : _crime_score mexp emptyCrime = 50 := by
  simp [_crime_score, _fv, emptyCrime]

theorem prop_empty : _property_score none = 50 := rfl

theorem age_score_1975 : _age_score (.num 1975) = 400/9 := by
  have h1 : truncInt 1975 = 1975 := by
    unfold truncInt
    rw [if_pos (by norm_num)]
    norm_num
  simp only [_age_score, pyFloatGetD, h1]
  have h2 : (((2025 - 1975 : ℤ) : ℚ) - 10) / 90 * 100 = 400/9 := by norm_num
  rw [h2]
  exact clamp_eq_self (by norm_num) (by norm_num)

theorem class_score_A9 : _class_score (some "A9") = 20 := by decide

theorem value_score_500000_2000 : _value_score (.num 500000) (.num 2000) = 0 := by
  simp only [_value_score, pyFloatOr0]
  rw [if_pos (by norm_num : (0:ℚ) < 2000)]
  have h : (100 : ℚ) - 500000/2000 = -150 := by norm_num
  rw [h, min_eq_right (by norm_num : (-150:ℚ) ≤ 100), max_eq_left (by norm_num : (-150:ℚ) ≤ 0)]

/-- Rounding and clamping commute, `round(clamp(x)) = clamp(round(x), 0, 100)`: the spec writes the crime
formula as clamp-after-round, the code rounds after clamping. -/
theorem pyRound_clamp_comm (x : ℚ) :
    pyRound (max 0 (min 100 x)) = max 0 (min 100 (pyRound x)) := by
  rcases lt_or_le x 0 with h0 | h0
  · rw [min_eq_right (by linarith), max_eq_left (by linarith)]
    have hle : pyRound x ≤ 0 := pyRound_le_of_le (by exact_mod_cast h0.le)
    rw [min_eq_right (by exact_mod_cast hle.trans (by norm_num)), max_eq_left hle]
    rw [show (0:ℚ) = ((0:ℤ):ℚ) by norm_num, pyRound_intCast]
  · rcases le_or_lt x 100 with h1 | h1
    · rw [clamp_eq_self h0 h1]
      have hge : 0 ≤ pyRound x := le_pyRound_of_le (by exact_mod_cast h0)
      have hle : pyRound x ≤ 100 := pyRound_le_of_le (by exact_mod_cast h1)
      rw [min_eq_right hle, max_eq_right hge]
    · rw [min_eq_left (by linarith), max_eq_right (by norm_num)]
      have hge : (100:ℤ) ≤ pyRound x := le_pyRound_of_le (by exact_mod_cast h1.le)
      rw [min_eq_left hge, max_eq_right (by omega)]
      rw [show (100:ℚ) = ((100:ℤ):ℚ) by norm_num, pyRound_intCast]

/-! ### Lemmas about the grid-sampler loop -/

theorem sampleLoop_length_le {P : Type} (oracle : P → Nat × ℚ) (required : Nat) :
    ∀ (pts : List P) (scores : List ℚ),
      (sampleLoop oracle required pts scores).length ≤ max scores.length required := by
  intro pts
  induction pts with
  | nil =>
      intro scores
      simp [sampleLoop]
  | cons p rest ih =>
      intro scores
      unfold sampleLoop
      split
      · exact le_max_left _ _
      · split
        · exact ih scores
        · have h := ih (scores ++ [(oracle p).2])
          simp only [List.length_append, List.length_singleton] at h
          have hlt : ¬ required ≤ scores.length := by assumption
          omega

theorem sampleLoop_mem {P : Type} (oracle : P → Nat × ℚ) (required : Nat) :
    ∀ (pts : List P) (scores : List ℚ) (s : ℚ),
      s ∈ sampleLoop oracle required pts scores →
      s ∈ scores ∨ ∃ p, p ∈ pts ∧ 100 ≤ (oracle p).1 ∧ s = (oracle p).2 := by
  intro pts
  induction pts with
  | nil =>
      intro scores s hs
      left
      simpa [sampleLoop] using hs
  | cons p rest ih =>
      intro scores s hs
      unfold sampleLoop at hs
      split at hs
      · exact Or.inl hs
      · split at hs
        · rcases ih scores s hs with h | ⟨q, hq, hc, he⟩
          · exact Or.inl h
          · exact Or.inr ⟨q, List.mem_cons_of_mem p hq, hc, he⟩
        · rcases ih (scores ++ [(oracle p).2]) s hs with h | ⟨q, hq, hc, he⟩
          · rcases List.mem_append.mp h with h | h
            · exact Or.inl h
            · refine Or.inr ⟨p, List.mem_cons_self p rest, by omega, ?_⟩
              simpa using h
          · exact Or.inr ⟨q, List.mem_cons_of_mem p hq, hc, he⟩

/-! ### Claim theorems -/

/-- C1: for every flood, crime, and property input, `compute_scores` returns
flood, crime, and property scores that are integers in [0,100], and returns
`overall = round(0.40*flood + 0.35*crime + 0.25*property)` of those three
just-computed scores, also an integer in [0,100]; `overall` is a derived
value, never taken from the input (the input records carry no overall field
and the output's overall is the rounded blend of the computed sub-scores). -/
theorem claim_C1 (mexp : ℚ → ℚ) (flood : FloodRecord) (crime : CrimeRecord)
    (property_data : Option PlutoRecord) :
    (0 ≤ (compute_scores mexp flood crime property_data).flood ∧
      (compute_scores mexp flood crime property_data).flood ≤ 100) ∧
    (0 ≤ (compute_scores mexp flood crime property_data).crime ∧
      (compute_scores mexp flood crime property_data).crime ≤ 100) ∧
    (0 ≤ (compute_scores mexp flood crime property_data).property ∧
      (compute_scores mexp flood crime property_data).property ≤ 100) ∧
    (compute_scores mexp flood crime property_data).flood = _flood_score flood ∧
    (compute_scores mexp flood crime property_data).crime = _crime_score mexp crime ∧
    (compute_scores mexp flood crime property_data).property = _property_score property_data ∧
    (compute_scores mexp flood crime property_data).overall =
      pyRound (0.40 * ((compute_scores mexp flood crime property_data).flood : ℚ) +
               0.35 * ((compute_scores mexp flood crime property_data).crime : ℚ) +
               0.25 * ((compute_scores mexp flood crime property_data).property : ℚ)) ∧
    (0 ≤ (compute_scores mexp flood crime property_data).overall ∧
      (compute_scores mexp flood crime property_data).overall ≤ 100) := by
  have hf0 := _flood_score_nonneg flood
  have hf1 := _flood_score_le_100 flood
  have hc0 := _crime_score_nonneg mexp crime
  have hc1 := _crime_score_le_100 mexp crime
  have hp0 := _property_score_nonneg property_data
  have hp1 := _property_score_le_100 property_data
  have hfq0 : (0:ℚ) ≤ (_flood_score flood : ℚ) := by exact_mod_cast hf0
  have hfq1 : (_flood_score flood : ℚ) ≤ 100 := by exact_mod_cast hf1
  have hcq0 : (0:ℚ) ≤ (_crime_score mexp crime : ℚ) := by exact_mod_cast hc0
  have hcq1 : (_crime_score mexp crime : ℚ) ≤ 100 := by exact_mod_cast hc1
  have hpq0 : (0:ℚ) ≤ (_property_score property_data : ℚ) := by exact_mod_cast hp0
  have hpq1 : (_property_score property_data : ℚ) ≤ 100 := by exact_mod_cast hp1
  refine ⟨⟨hf0, hf1⟩, ⟨hc0, hc1⟩, ⟨hp0, hp1⟩, rfl, rfl, rfl, rfl, ?_, ?_⟩
  · exact le_pyRound_of_le (by push_cast; linarith)
  · exact pyRound_le_of_le (by push_cast; linarith)

/-- C2: with a wholly empty flood dict, a wholly empty crime dict, and no
property record, `compute_scores` returns flood = crime = property =
overall = 50 (and, being a total function of the embedding, it cannot
fail). -/
theorem claim_C2 (mexp : ℚ → ℚ) :
    compute_scores mexp emptyFlood emptyCrime none =
      { flood := 50, crime := 50, property := 50, overall := 50 } := by
  unfold compute_scores
  dsimp only
  rw [flood_empty, crime_empty, prop_empty]
  have h : (0.40 : ℚ) * ((50:ℤ) : ℚ) + 0.35 * ((50:ℤ) : ℚ) + 0.25 * ((50:ℤ) : ℚ) =
      ((50:ℤ) : ℚ) := by
    push_cast
    norm_num
  rw [h, pyRound_intCast]

/-- C3: for complete flood records (all six FVI components and FSHRI
present), the flood score is jointly monotone: raising any subset of the
seven components — in particular any single one with the other six fixed —
never decreases the score. -/
theorem claim_C3 (a b c d e f g a' b' c' d' e' f' g' : ℚ)
    (ha : a ≤ a') (hb : b ≤ b') (hc : c ≤ c') (hd : d ≤ d')
    (he : e ≤ e') (hf : f ≤ f') (hg : g ≤ g') :
    _flood_score ⟨.num a, .num b, .num c, .num d, .num e, .num f, .num g⟩ ≤
    _flood_score ⟨.num a', .num b', .num c', .num d', .num e', .num f', .num g'⟩ := by
  rw [flood_score_complete, flood_score_complete]
  exact pyRound_mono (clamp_mono (by linarith))

/-- Witness for C3 at a concrete pair of complete records. -/
theorem claim_C3_witness :
    ((1:ℚ) ≤ 2 ∧ (2:ℚ) ≤ 2 ∧ (2:ℚ) ≤ 3 ∧ (3:ℚ) ≤ 3 ∧ (3:ℚ) ≤ 4 ∧
      (3:ℚ) ≤ 3 ∧ (2:ℚ) ≤ 2) ∧
    _flood_score ⟨.num 1, .num 2, .num 2, .num 3, .num 3, .num 3, .num 2⟩ ≤
    _flood_score ⟨.num 2, .num 2, .num 3, .num 3, .num 4, .num 3, .num 2⟩ :=
  ⟨by norm_num,
   claim_C3 1 2 2 3 3 3 2 2 2 3 3 4 3 2 (by norm_num) (by norm_num) (by norm_num)
     (by norm_num) (by norm_num) (by norm_num) (by norm_num)⟩

/-- C4: on the record with storm-surge-present missing, both later surge
horizons = 2, all tidal components missing, FSHRI = 3, the flood scorer
renormalizes over the available components — the combined index is
(0.4*2 + 0.3*3)/(0.4 + 0.3) — and returns exactly 36. -/
theorem claim_C4 :
    _flood_score ⟨.pnone, .num 2, .num 2, .pnone, .pnone, .pnone, .num 3⟩ =
      pyRound (max 0 (min 100 ((((0.4*2 + 0.3*3)/(0.4 + 0.3) : ℚ) - 1)/4*100))) ∧
    _flood_score ⟨.pnone, .num 2, .num 2, .pnone, .pnone, .pnone, .num 3⟩ = 36 := by
  constructor
  · rw [flood_score_surge_fshri]
    congr 1
    norm_num
  · rw [flood_score_surge_fshri]
    have harg : ((((2*(0.5:ℚ) + 2*0.3)/(0.5+0.3))*0.4 + 3*0.3)/(0.4+0.3) - 1)/4*100 = 250/7 := by
      norm_num
    rw [harg, clamp_eq_self (by norm_num) (by norm_num), show (36:ℤ) = 35 + 1 by norm_num]
    exact pyRound_eq_add_one (by norm_num) (by norm_num)

/-- C6: when severity, mean, and std are all present and std is zero, the
crime scorer takes z = 0 instead of dividing by std (the embedding's division
guard is exercised, so no ZeroDivisionError path exists), and the result is
the claim's clamp-after-round sigmoid `clamp(round(100/(1+e^(-1.5*(z-0.3)))),
0, 100)` applied to z = 0 — the code rounds after clamping, and the two
compositions agree (`pyRound_clamp_comm`). -/
theorem claim_C6 (mexp : ℚ → ℚ) (sev mean : ℚ) :
    _crime_score mexp ⟨.num sev, .num mean, .num 0⟩ =
      max 0 (min 100 (pyRound (100 / (1 + mexp (-1.5 * ((0:ℚ) - 0.3)))))) := by
  simp only [_crime_score, _fv]
  rw [if_neg (by norm_num : ¬ ((0:ℚ) ≠ 0))]
  exact pyRound_clamp_comm _

/-- C7: on the record {yearbuilt = 1975, bldgclass = "A9",
assesstot = 500000, lotarea = 2000}: age = 2025 - 1975 = 50 gives
age_score = 400/9 (= 44.44…, printed 44.4 in the spec), class_score = 20
from the first letter A, value_score = 0 after clamping 100 - 250, and the
property score is exactly 24. -/
theorem claim_C7 :
    _age_score (.num 1975) = 400/9 ∧
    _class_score (some "A9") = 20 ∧
    _value_score (.num 500000) (.num 2000) = 0 ∧
    _property_score (some ⟨.num 1975, some "A9", .num 500000, .num 2000, false⟩) = 24 := by
  refine ⟨age_score_1975, class_score_A9, value_score_500000_2000, ?_⟩
  unfold _property_score
  dsimp only
  rw [age_score_1975, class_score_A9, value_score_500000_2000]
  have h : (0.40 : ℚ) * (400/9) + 0.30 * 20 + 0.30 * 0 = 214/9 := by norm_num
  rw [h, clamp_eq_self (by norm_num) (by norm_num), show (24:ℤ) = 23 + 1 by norm_num]
  exact pyRound_eq_add_one (by norm_num) (by norm_num)

/-- C8: whenever the lot area parses to a value ≤ 0 and the assessed value
parses, the value component is 0 before clamping (zero density), so
value_score is exactly 100 — maximum risk, not a neutral value. -/
theorem claim_C8 (assesstot lotarea : PField) (v a : ℚ)
    (hv : pyFloatOr0 assesstot = some v) (ha : pyFloatOr0 lotarea = some a)
    (ha0 : a ≤ 0) :
    _value_score assesstot lotarea = 100 := by
  unfold _value_score
  rw [hv, ha]
  dsimp only
  rw [if_neg (by linarith : ¬ (0:ℚ) < a)]
  norm_num

/-- Witness for C8 at a concrete zero-area record. -/
theorem claim_C8_witness :
    pyFloatOr0 (.num 500000) = some 500000 ∧ pyFloatOr0 (.num 0) = some 0 ∧
    (0:ℚ) ≤ 0 ∧ _value_score (.num 500000) (.num 0) = 100 :=
  ⟨rfl, rfl, le_refl 0, claim_C8 (.num 500000) (.num 0) 500000 0 rfl rfl (le_refl 0)⟩

/-- C5: for every borough polygon membership test, candidate grid, shuffle
that permutes (it returns only elements of its input), severity-fetch oracle
and target count, the grid sampler returns at most `required` severity
values, and every returned value comes from a candidate point that lies
inside the polygon and whose local sample has at least 100 incidents;
low-count candidates contribute nothing. -/
theorem claim_C5 {P : Type} (inPoly : P → Bool) (grid : List P)
    (shuffle : List P → List P) (oracle : P → Nat × ℚ) (required : Nat)
    (hshuffle : ∀ (x : P) (l : List P), x ∈ shuffle l → x ∈ l) :
    (sample_high_density_grid inPoly grid shuffle oracle required).length ≤ required ∧
    ∀ s ∈ sample_high_density_grid inPoly grid shuffle oracle required,
      ∃ p, p ∈ grid ∧ inPoly p = true ∧ 100 ≤ (oracle p).1 ∧ s = (oracle p).2 := by
  constructor
  · have h := sampleLoop_length_le oracle required
      (shuffle (grid.filter fun p => inPoly p)) []
    simpa [sample_high_density_grid] using h
  · intro s hs
    have h := sampleLoop_mem oracle required
      (shuffle (grid.filter fun p => inPoly p)) [] s hs
    rcases h with h | ⟨p, hp, hcnt, he⟩
    · simp at h
    · have hp2 := hshuffle p _ hp
      rcases List.mem_filter.mp hp2 with ⟨hpg, hpin⟩
      exact ⟨p, hpg, hpin, hcnt, he⟩

/-- Witness for C5: a three-point grid, identity shuffle, an oracle whose
counts are all ≥ 100, target 1. -/
theorem claim_C5_witness :
    (∀ (x : ℕ) (l : List ℕ), x ∈ id l → x ∈ l) ∧
    ((sample_high_density_grid (fun p => decide (p ≤ 1)) [0, 1, 2] id
        (fun p => (100 + p, (p : ℚ))) 1).length ≤ 1 ∧
      ∀ s ∈ sample_high_density_grid (fun p => decide (p ≤ 1)) [0, 1, 2] id
          (fun p => (100 + p, (p : ℚ))) 1,
        ∃ p : ℕ, p ∈ [0, 1, 2] ∧ decide (p ≤ 1) = true ∧
          100 ≤ (100 + p, (p : ℚ)).1 ∧ s = (100 + p, (p : ℚ)).2) :=
  ⟨fun _ _ h => h,
   claim_C5 (fun p => decide (p ≤ 1)) [0, 1, 2] id (fun p => (100 + p, (p : ℚ))) 1
     (fun _ _ h => h)⟩

/-- C10 (implicit): `score_crime_severity` divides the summed category
weights by the sample's intersected area with no zero-guard, so every crime
sample whose area is 0 raises ZeroDivisionError instead of returning a
neutral or explicit-error value. -/
theorem claim_C10 (data : List Incident) :
    score_crime_severity { data := data, area := 0 } = .error .zeroDivision := by
  simp [score_crime_severity, pyDiv, Except.map]

/-- C9: the deterministic scores are computed independently of the narrative
transport: a transport failure propagates unchanged as the result of
`generate_risk_assessment` (no fallback scores, no score-less success), and
any successful result carries exactly `compute_scores` of the inputs, whatever
narrative the transport returned. -/
theorem claim_C9 (mexp : ℚ → ℚ)
    (retrieve : PField → PField → Nat → List String)
    (build : String → FloodRecord → CrimeRecord → Option PlutoRecord →
             List String → Scores → List String)
    (post : List String → Except TransportErr String)
    (flood : FloodRecord) (crime : CrimeRecord) (address : String)
    (property_data : Option PlutoRecord) :
    (∀ e, post (build address flood crime property_data
          (retrieve flood.FSHRI flood.FVI_storm_surge_2050s 3)
          (compute_scores mexp flood crime property_data)) = .error e →
        generate_risk_assessment mexp retrieve build post flood crime address
          property_data = .error e) ∧
    (∀ r, generate_risk_assessment mexp retrieve build post flood crime address
          property_data = .ok r →
        r.scores = compute_scores mexp flood crime property_data) := by
  unfold generate_risk_assessment
  dsimp only
  constructor
  · intro e he
    rw [he]
    rfl
  · intro r hr
    cases hpost : post (build address flood crime property_data
        (retrieve flood.FSHRI flood.FVI_storm_surge_2050s 3)
        (compute_scores mexp flood crime property_data)) with
    | error e =>
        rw [hpost] at hr
        exact absurd hr (by simp [Except.map])
    | ok n =>
        rw [hpost] at hr
        simp only [Except.map] at hr
        injection hr with h
        rw [← h]

/-- Witness for C9: with a transport that always fails, the pipeline returns
exactly that transport error. -/
theorem claim_C9_witness :
    (fun _ : List String => (Except.error TransportErr.httpError : Except TransportErr String))
        (["msg"]) = .error TransportErr.httpError ∧
    generate_risk_assessment (fun q => q) (fun _ _ _ => []) (fun _ _ _ _ _ _ => [])
        (fun _ => .error TransportErr.httpError) emptyFlood emptyCrime "a" none =
      .error TransportErr.httpError :=
  ⟨rfl,
   (claim_C9 (fun q => q) (fun _ _ _ => []) (fun _ _ _ _ _ _ => [])
       (fun _ => .error TransportErr.httpError) emptyFlood emptyCrime "a" none).1
     TransportErr.httpError rfl⟩
